import Mathlib

/-!
# Clementine: the Python plugin language (`src/api/pythonlanguage.cpp`)

A shallow embedding of `PlayerDelegateWrapper`, `PythonPlugin`,
`PythonLanguage::LoadPlugin` and `PythonLanguage::UnloadPlugin`.

The file system, `QString::toUtf8` and the embedded Python interpreter are
external collaborators.  They are taken as a record of functions (`Host`); the
interpreter's functions thread an abstract interpreter state `σ`.  Everything
the C++ code itself does (control flow, which call is made with which
arguments, what is logged, what is returned) is modelled as explicit state
passing over a `World`.

Conventions of the interpreter's C API that the embedding relies on: a call
that fails returns NULL with the error indicator set, and a call that succeeds
leaves the error indicator alone.  `PyErr_Print` follows CPython's
`PyErr_PrintEx`: a pending `SystemExit` ends the process (`handle_system_exit`,
unless the inspect flag is set); any other error is handed to `sys.excepthook`,
which the script may have replaced, so what is written (and whether the hook
itself ends the process) is the host's answer.  A C++ `try` block is a
computation with an `Except CppException` result, and
`catch (error_already_set&)` is the match on its error; a function ends by
returning, by throwing, or with the process (`Abrupt`).

Every function of the host returns an answer: a run in which the script
itself never returns from a call, or ends the process on its own, is not a run
of this model.
-/

namespace Clementine

/-! ## Qt strings -/

/-- A `QString`: a sequence of UTF-16 code units (every one below `65536`). -/
abbrev QString := List Nat

/-- A `QByteArray`, also used for a `char*` argument: a sequence of bytes. -/
abbrev QByteArray := List Nat

/-- The `QString` of a C string literal of the source (all literals of this
file are ASCII): `QString::fromAscii`, as `operator+` applies it. -/
def fromAscii (s : String) : QString := s.toList.map Char.toNat

/-- Qt's `QString::toLatin1()`: a code unit above `0xff` has no Latin-1
encoding and becomes `'?'` (byte 63); every other code unit is its own byte. -/
def toLatin1 (s : QString) : QByteArray := s.map fun u => if u > 0xff then 63 else u

/-- `QByteArray::data()` read as a `char*` by a C API: the bytes before the
first NUL byte. -/
def data (b : QByteArray) : QByteArray := b.takeWhile fun c => c != 0

/-! ## Host objects -/

/-- The fields of `clementine::AvailablePlugin` this file reads. -/
structure AvailablePlugin where
  path_ : QString
  id_ : QString
deriving DecidableEq, Repr

/-- A `clementine::Clementine*`: the application handle, by address. -/
structure ClementinePtr where
  addr : Nat
deriving DecidableEq, Repr

/-- A `boost::python::object`: a reference to a Python object, by identity. -/
structure PyObject where
  id : Nat
deriving DecidableEq, Repr

/-- A raised Python exception, as the error indicator holds it: the exception
class (a class object) and the exception value. -/
structure PyErr where
  type : PyObject
  value : PyObject
deriving DecidableEq, Repr

/-- The one C++ exception `boost::python` throws for a pending Python error. -/
inductive CppException where
  | error_already_set
deriving DecidableEq, Repr

/-- How a C++ function can end other than by returning: with a thrown
exception, or with the end of the process (`Py_Exit`). -/
inductive Abrupt where
  | thrown (x : CppException)
  | exited
deriving DecidableEq, Repr

/-- One item streamed into `qLog(Warning)`. -/
inductive LogItem where
  | cstr (s : String)
  | qstring (s : QString)
deriving DecidableEq, Repr

/-- The base class `clementine::Plugin`, constructed by `Plugin(clem, plugin_info)`. -/
structure Plugin where
  clementine_ : ClementinePtr
  plugin_info_ : AvailablePlugin
deriving DecidableEq, Repr

/-- The class `PythonPlugin : public clementine::Plugin`. -/
structure PythonPlugin extends Plugin where
  py_object_ : PyObject
deriving DecidableEq, Repr

/-- The constructor `PythonPlugin(py_object, clem, plugin_info)`. -/
def PythonPlugin.new (py_object : PyObject) (clem : ClementinePtr)
    (plugin_info : AvailablePlugin) : PythonPlugin :=
  { clementine_ := clem, plugin_info_ := plugin_info, py_object_ := py_object }

/-- The class `PythonLanguage : public clementine::Language`; `clementine_` is
the handle given to the constructor `PythonLanguage(clem) : Language(clem)`. -/
structure PythonLanguage where
  clementine_ : ClementinePtr
deriving DecidableEq, Repr

/-- The constructor `PythonLanguage::PythonLanguage(clem)`. -/
def PythonLanguage.new (clem : ClementinePtr) : PythonLanguage :=
  { clementine_ := clem }

/-! ## The world outside the adapter -/

/-- An external call `LoadPlugin` can make, with its arguments: `to_python` is
the conversion `reference_existing_object::apply<Clementine*>::type()(clem)`,
`getattr` the read of `target.attr(name)`, `call` the application
`callable(args...)`. -/
inductive Call where
  | QFile_open (filename : QString)
  | Py_CompileString (source : QByteArray) (filename : QByteArray)
  | PyImport_ExecCodeModule (name : QByteArray) (code : PyObject)
  | getattr (target : PyObject) (name : String)
  | to_python (clem : ClementinePtr)
  | call (callable : PyObject) (args : List PyObject)
deriving DecidableEq, Repr

/-- An external call together with whether it succeeded. -/
structure Event where
  call : Call
  ok : Bool
deriving DecidableEq, Repr

/-- The external collaborators: the file system, `QString::toUtf8`, and the
Python interpreter with internal state `σ`.  An interpreter function returns
the new object or the exception it raised, and the interpreter's next state.

`PyExc_AttributeError` and `PyExc_SystemExit` are the builtin class objects;
`PyErr_GivenExceptionMatches py e cls` is the interpreter's answer to whether
the class of `e` is the class object `cls` or derives from it;
`Py_InspectFlag` is the interpreter's inspect flag; `handle_system_exit py e`
is what the interpreter writes for the `SystemExit` `e` before it ends the
process, and its state then; `sys_excepthook py e` is the display of `e`
through whatever `sys.excepthook` is installed in state `py`: what is
written, whether the display itself ends the process (a hook that raises
`SystemExit`), and the interpreter's next state. -/
structure Host (σ : Type) where
  QFile_open : QString → Bool
  QFile_readAll : QString → QByteArray
  toUtf8 : QString → QByteArray
  Py_CompileString : σ → QByteArray → QByteArray → Except PyErr PyObject × σ
  PyImport_ExecCodeModule : σ → QByteArray → PyObject → Except PyErr PyObject × σ
  PyObject_GetAttrString : σ → PyObject → String → Except PyErr PyObject × σ
  reference_existing_object : σ → ClementinePtr → Except PyErr PyObject × σ
  PyEval_CallFunction : σ → PyObject → List PyObject → Except PyErr PyObject × σ
  PyExc_AttributeError : PyObject
  PyExc_SystemExit : PyObject
  PyErr_GivenExceptionMatches : σ → PyErr → PyObject → Bool
  Py_InspectFlag : σ → Bool
  handle_system_exit : σ → PyErr → List String × σ
  sys_excepthook : σ → PyErr → List String × Bool × σ

/-- Everything `LoadPlugin` can change: the interpreter's internal state, its
error indicator, the text the interpreter wrote while printing errors, the
errors `PyErr_Print` went on to display (through the installed
`sys.excepthook`, or the built-in display when none is installed), the host's
warning log, and the record of the external calls made so far.  When the
process ends, the world is the one at that moment. -/
structure World (σ : Type) where
  py : σ
  pyErr : Option PyErr
  pyStderr : List String
  pyPrinted : List PyErr
  log : List (List LogItem)
  calls : List Event
deriving DecidableEq

/-- The statement `qLog(Warning) << item << ...;`: one line of the log. -/
def qLog_Warning {σ : Type} (items : List LogItem) (w : World σ) : World σ :=
  { w with log := w.log ++ [items] }

/-- What `PyErr_PrintEx` does with a pending error: whether it ends the
process, whether it handed the error to `sys.excepthook`, what was written,
and the interpreter's state afterwards. -/
structure PrintResult (σ : Type) where
  exits : Bool
  shown : Bool
  written : List String
  py : σ

/-- CPython's `PyErr_PrintEx` on the pending error `e` in interpreter state
`py`: a `SystemExit` goes to `handle_system_exit`, which ends the process
unless the inspect flag is set; every other error (and a `SystemExit` under
the inspect flag) is displayed through `sys.excepthook`. -/
def PyErr_PrintEx {σ : Type} (h : Host σ) (py : σ) (e : PyErr) : PrintResult σ :=
  if !h.Py_InspectFlag py && h.PyErr_GivenExceptionMatches py e h.PyExc_SystemExit then
    { exits := true, shown := false,
      written := (h.handle_system_exit py e).1, py := (h.handle_system_exit py e).2 }
  else
    { exits := (h.sys_excepthook py e).2.1, shown := true,
      written := (h.sys_excepthook py e).1, py := (h.sys_excepthook py e).2.2 }

/-- The call `PyErr_Print()`: nothing when no error is pending; otherwise
`PyErr_PrintEx` on the pending error, which clears the error indicator and
either returns or ends the process. -/
def PyErr_Print {σ : Type} (h : Host σ) (w : World σ) : Except Abrupt Unit × World σ :=
  match w.pyErr with
  | none => (Except.ok (), w)
  | some e =>
    (if (PyErr_PrintEx h w.py e).exits then Except.error Abrupt.exited else Except.ok (),
      { w with
        py := (PyErr_PrintEx h w.py e).py
        pyErr := none
        pyStderr := w.pyStderr ++ (PyErr_PrintEx h w.py e).written
        pyPrinted :=
          if (PyErr_PrintEx h w.py e).shown then w.pyPrinted ++ [e] else w.pyPrinted })

/-- The call `PyErr_Clear()`. -/
def PyErr_Clear {σ : Type} (w : World σ) : World σ :=
  { w with pyErr := none }

/-- The call `PyErr_ExceptionMatches(exc)`: the interpreter's answer for the
pending error and the class object `exc`; false when no error is pending. -/
def PyErr_ExceptionMatches {σ : Type} (h : Host σ) (w : World σ) (exc : PyObject) : Bool :=
  match w.pyErr with
  | none => false
  | some e => h.PyErr_GivenExceptionMatches w.py e exc

/-- The end of a `catch` block, after its statement `st` (which may have
ended the process): `PyErr_Clear(); return NULL;`. -/
def clearAndReturnNull {σ : Type} (st : Except Abrupt Unit × World σ) :
    Except Abrupt (Option PythonPlugin) × World σ :=
  match st with
  | (Except.error x, w) => (Except.error x, w)
  | (Except.ok _, w) => (Except.ok none, PyErr_Clear w)

/-- The call `file.open(QIODevice::ReadOnly)`, recorded. -/
def QFile_open {σ : Type} (h : Host σ) (filename : QString) (w : World σ) :
    Bool × World σ :=
  (h.QFile_open filename,
    { w with calls := w.calls ++ [⟨Call.QFile_open filename, h.QFile_open filename⟩] })

/-- An interpreter call whose result `boost::python` takes over
(`handle<>(p)`, `getattr`, `operator()`): a NULL result, which comes with the
error indicator set, throws `error_already_set`. -/
def pyCall {σ : Type} (c : Call) (r : Except PyErr PyObject × σ) (w : World σ) :
    Except CppException PyObject × World σ :=
  match r with
  | (Except.ok o, s) =>
    (Except.ok o, { w with py := s, calls := w.calls ++ [⟨c, true⟩] })
  | (Except.error e, s) =>
    (Except.error CppException.error_already_set,
      { w with py := s, pyErr := some e, calls := w.calls ++ [⟨c, false⟩] })

/-- The expression `("clementineplugin_" + plugin.id_).toLatin1().data()`. -/
def moduleName (plugin : AvailablePlugin) : QByteArray :=
  data (toLatin1 (fromAscii "clementineplugin_" ++ plugin.id_))

/-- The method `PythonLanguage::LoadPlugin`; `none` is `NULL`. -/
def LoadPlugin {σ : Type} (h : Host σ) (self : PythonLanguage) (plugin : AvailablePlugin)
    (w : World σ) : Except Abrupt (Option PythonPlugin) × World σ :=
  -- Open the source file
  let filename : QString := plugin.path_ ++ fromAscii "/__main__.py"
  match QFile_open h filename w with
  | (false, w) =>
    (Except.ok none,
      qLog_Warning [LogItem.cstr "Couldn't open Python file", LogItem.qstring filename] w)
  | (true, w) =>
    -- Read its contents
    let source : QByteArray := h.QFile_readAll filename
    -- try: create the code object, then a module for the code object
    let tried : Except CppException PyObject × World σ :=
      match pyCall (Call.Py_CompileString (data source) (data (h.toUtf8 filename)))
          (h.Py_CompileString w.py (data source) (data (h.toUtf8 filename))) w with
      | (Except.error x, w) => (Except.error x, w)
      | (Except.ok code, w) =>
        pyCall (Call.PyImport_ExecCodeModule (moduleName plugin) code)
          (h.PyImport_ExecCodeModule w.py (moduleName plugin) code) w
    match tried with
    | (Except.error CppException.error_already_set, w) =>
      clearAndReturnNull (PyErr_Print h w)
    | (Except.ok module, w) =>
      -- Get the plugin's Plugin class.
      match pyCall (Call.getattr module "Plugin")
          (h.PyObject_GetAttrString w.py module "Plugin") w with
      | (Except.error CppException.error_already_set, w) =>
        clearAndReturnNull
          (if PyErr_ExceptionMatches h w h.PyExc_AttributeError then
            (Except.ok (), qLog_Warning [LogItem.qstring plugin.id_,
              LogItem.cstr ": You must define a class called 'Plugin' in __main__.py"] w)
          else
            PyErr_Print h w)
      | (Except.ok plugin_class, w) =>
        -- Try to instantiate it.
        let tried : Except CppException PyObject × World σ :=
          match pyCall (Call.to_python self.clementine_)
              (h.reference_existing_object w.py self.clementine_) w with
          | (Except.error x, w) => (Except.error x, w)
          | (Except.ok py_app, w) =>
            pyCall (Call.call plugin_class [py_app])
              (h.PyEval_CallFunction w.py plugin_class [py_app]) w
        match tried with
        | (Except.error CppException.error_already_set, w) =>
          clearAndReturnNull (PyErr_Print h w)
        | (Except.ok py_object, w) =>
          -- Create and return the C++ plugin.
          (Except.ok (some (PythonPlugin.new py_object self.clementine_ plugin)), w)

/-- The method `PythonLanguage::UnloadPlugin`, whose body is empty: the
language object, the plugin its argument points to (a `PythonPlugin`, as
`LoadPlugin` creates them) and the world, as it leaves them. -/
def UnloadPlugin {σ : Type} (self : PythonLanguage) (plugin : PythonPlugin) (w : World σ) :
    PythonLanguage × PythonPlugin × World σ :=
  (self, plugin, w)

/-! ## The delegate wrapper -/

/-- The enumeration `clementine::Player::State`. -/
inductive PlayerState where
  | State_Stopped
  | State_Playing
  | State_Paused
deriving DecidableEq, Repr

/-- A value passed to a delegate callback. -/
inductive Value where
  | state (s : PlayerState)
  | int (n : Int)
  | qlonglong (n : Int)
deriving DecidableEq, Repr

/-- The virtual methods of `clementine::PlayerDelegate`. -/
inductive NativeMethod where
  | StateChanged
  | VolumeChanged
  | PositionChanged
  | PlaylistFinished
deriving DecidableEq, Repr

/-- What a delegate callback invokes: the script's override `f(args)`, or the
native `PlayerDelegate::Method(args)`. -/
inductive Invocation where
  | script (f : PyObject) (args : List Value)
  | native (method : NativeMethod) (args : List Value)
deriving DecidableEq, Repr

/-- The struct `PlayerDelegateWrapper`; `get_override name` is the override the
script object defines under `name`, if it defines one. -/
structure PlayerDelegateWrapper where
  get_override : String → Option PyObject

namespace PlayerDelegateWrapper

/-- The method `DefaultStateChanged`. -/
def DefaultStateChanged (_self : PlayerDelegateWrapper) (state : PlayerState)
    (t : List Invocation) : List Invocation :=
  t ++ [Invocation.native NativeMethod.StateChanged [Value.state state]]

/-- The method `StateChanged`. -/
def StateChanged (self : PlayerDelegateWrapper) (state : PlayerState)
    (t : List Invocation) : List Invocation :=
  match self.get_override "state_changed" with
  | some f => t ++ [Invocation.script f [Value.state state]]
  | none => self.DefaultStateChanged state t

/-- The method `DefaultVolumeChanged`. -/
def DefaultVolumeChanged (_self : PlayerDelegateWrapper) (percent : Int)
    (t : List Invocation) : List Invocation :=
  t ++ [Invocation.native NativeMethod.VolumeChanged [Value.int percent]]

/-- The method `VolumeChanged`. -/
def VolumeChanged (self : PlayerDelegateWrapper) (percent : Int)
    (t : List Invocation) : List Invocation :=
  match self.get_override "volume_changed" with
  | some f => t ++ [Invocation.script f [Value.int percent]]
  | none => self.DefaultVolumeChanged percent t

/-- The method `DefaultPositionChanged`. -/
def DefaultPositionChanged (_self : PlayerDelegateWrapper) (microseconds : Int)
    (t : List Invocation) : List Invocation :=
  t ++ [Invocation.native NativeMethod.PositionChanged [Value.qlonglong microseconds]]

/-- The method `PositionChanged`. -/
def PositionChanged (self : PlayerDelegateWrapper) (microseconds : Int)
    (t : List Invocation) : List Invocation :=
  match self.get_override "position_changed" with
  | some f => t ++ [Invocation.script f [Value.qlonglong microseconds]]
  | none => self.DefaultPositionChanged microseconds t

/-- The method `DefaultPlaylistFinished`. -/
def DefaultPlaylistFinished (_self : PlayerDelegateWrapper)
    (t : List Invocation) : List Invocation :=
  t ++ [Invocation.native NativeMethod.PlaylistFinished []]

/-- The method `PlaylistFinished`. -/
def PlaylistFinished (self : PlayerDelegateWrapper)
    (t : List Invocation) : List Invocation :=
  match self.get_override "playlist_finished" with
  | some f => t ++ [Invocation.script f []]
  | none => self.DefaultPlaylistFinished t

end PlayerDelegateWrapper

/-! ## Reading a run of `LoadPlugin` -/

/-- The external calls made between the world `w` and the later world `w2`. -/
def newCalls {σ : Type} (w w2 : World σ) : List Event :=
  w2.calls.drop w.calls.length

/-- The steps of loading a plugin: the four guarded blocks of `LoadPlugin`,
each of which ends in its own `return NULL` (the check of `file.open`, and
the three `try` blocks). -/
inductive Step where
  | openFile
  | compileExec
  | lookup
  | instantiate
deriving DecidableEq, Repr, Fintype

/-- The step an external call belongs to. -/
def Call.step : Call → Step
  | Call.QFile_open _ => Step.openFile
  | Call.Py_CompileString _ _ => Step.compileExec
  | Call.PyImport_ExecCodeModule _ _ => Step.compileExec
  | Call.getattr _ _ => Step.lookup
  | Call.to_python _ => Step.instantiate
  | Call.call _ _ => Step.instantiate

/-- Step `s` failed in the run with calls `evs`: one of its calls failed. -/
def stepFails (evs : List Event) (s : Step) : Prop :=
  ∃ e ∈ evs, e.call.step = s ∧ e.ok = false

/-- The file name `plugin.path_ + "/__main__.py"`. -/
def mainFile (plugin : AvailablePlugin) : QString :=
  plugin.path_ ++ fromAscii "/__main__.py"

/-! ## The paths through `LoadPlugin` -/

/-- The source text as `Py_CompileString` is given it: `source.constData()` for
the `source` that `file.readAll()` gives. -/
def mainSource {σ : Type} (h : Host σ) (plugin : AvailablePlugin) : QByteArray :=
  data (h.QFile_readAll (mainFile plugin))

/-- The file name as `Py_CompileString` is given it: `filename.toUtf8().constData()`. -/
def mainFileUtf8 {σ : Type} (h : Host σ) (plugin : AvailablePlugin) : QByteArray :=
  data (h.toUtf8 (mainFile plugin))

/-- The calls of a run up to and including a successful compile. -/
def callsCompiled {σ : Type} (h : Host σ) (plugin : AvailablePlugin) : List Event :=
  [⟨Call.QFile_open (mainFile plugin), true⟩,
   ⟨Call.Py_CompileString (mainSource h plugin) (mainFileUtf8 h plugin), true⟩]

/-- The place of an external call in the load sequence: open, compile,
execute as a module, look up `Plugin`, and the two calls of the instantiation
(convert the application handle, call the class). -/
def Call.index : Call → Nat
  | Call.QFile_open _ => 0
  | Call.Py_CompileString _ _ => 1
  | Call.PyImport_ExecCodeModule _ _ => 2
  | Call.getattr _ _ => 3
  | Call.to_python _ => 4
  | Call.call _ _ => 5

/-- The call goes to the Python interpreter. -/
def Call.isInterpreter : Call → Bool
  | Call.QFile_open _ => false
  | _ => true

/-! ## The four steps, as the host answers them -/

/-- How the load sequence of the specification ends on a host: with the first
step that fails (and, for an interpreter step, the error raised and the
interpreter state then), or with the instance the last step returned. -/
inductive StepsOutcome (σ : Type) where
  | openFailed
  | compileExecFailed (e : PyErr) (py : σ)
  | lookupFailed (e : PyErr) (py : σ)
  | instantiateFailed (e : PyErr) (py : σ)
  | allSucceeded (py_object : PyObject) (py : σ)

/-- The load sequence as the specification words it, asked of the host step by
step from the interpreter state `py`: open `<path>/__main__.py`; compile its
text and execute it as a module; look up the attribute `Plugin` on that
module; instantiate it on the application handle `clem`. -/
def loadSteps {σ : Type} (h : Host σ) (clem : ClementinePtr) (plugin : AvailablePlugin)
    (py : σ) : StepsOutcome σ :=
  match h.QFile_open (mainFile plugin) with
  | false => StepsOutcome.openFailed
  | true =>
    match h.Py_CompileString py (mainSource h plugin) (mainFileUtf8 h plugin) with
    | (Except.error e, s1) => StepsOutcome.compileExecFailed e s1
    | (Except.ok code, s1) =>
      match h.PyImport_ExecCodeModule s1 (moduleName plugin) code with
      | (Except.error e, s2) => StepsOutcome.compileExecFailed e s2
      | (Except.ok module, s2) =>
        match h.PyObject_GetAttrString s2 module "Plugin" with
        | (Except.error e, s3) => StepsOutcome.lookupFailed e s3
        | (Except.ok plugin_class, s3) =>
          match h.reference_existing_object s3 clem with
          | (Except.error e, s4) => StepsOutcome.instantiateFailed e s4
          | (Except.ok py_app, s4) =>
            match h.PyEval_CallFunction s4 plugin_class [py_app] with
            | (Except.error e, s5) => StepsOutcome.instantiateFailed e s5
            | (Except.ok py_object, s5) => StepsOutcome.allSucceeded py_object s5

/-- The step that failed, if one did. -/
def StepsOutcome.failedStep {σ : Type} : StepsOutcome σ → Option Step
  | StepsOutcome.openFailed => some Step.openFile
  | StepsOutcome.compileExecFailed _ _ => some Step.compileExec
  | StepsOutcome.lookupFailed _ _ => some Step.lookup
  | StepsOutcome.instantiateFailed _ _ => some Step.instantiate
  | StepsOutcome.allSucceeded _ _ => none

/-- The failure is one that ends the process: its error goes to `PyErr_Print`
(every interpreter failure but a failed lookup whose error matches
`AttributeError`), and `PyErr_PrintEx` ends the process on it. -/
def StepsOutcome.endsProcess {σ : Type} (h : Host σ) : StepsOutcome σ → Bool
  | StepsOutcome.openFailed => false
  | StepsOutcome.compileExecFailed e py => (PyErr_PrintEx h py e).exits
  | StepsOutcome.lookupFailed e py =>
    !h.PyErr_GivenExceptionMatches py e h.PyExc_AttributeError && (PyErr_PrintEx h py e).exits
  | StepsOutcome.instantiateFailed e py => (PyErr_PrintEx h py e).exits
  | StepsOutcome.allSucceeded _ _ => false

/-- Step `s` is a failure point of `LoadPlugin`: there is a run in which the
host fails step `s` and `LoadPlugin` returns `NULL`, and no run in which the
host fails step `s` returns a plugin. -/
def IsFailurePoint (s : Step) : Prop :=
  (∃ (h : Host Nat) (self : PythonLanguage) (plugin : AvailablePlugin) (w : World Nat),
    (loadSteps h self.clementine_ plugin w.py).failedStep = some s ∧
      (LoadPlugin h self plugin w).1 = Except.ok none) ∧
  ∀ (σ : Type) (h : Host σ) (self : PythonLanguage) (plugin : AvailablePlugin) (w : World σ),
    (loadSteps h self.clementine_ plugin w.py).failedStep = some s →
      ∀ p, (LoadPlugin h self plugin w).1 ≠ Except.ok (some p)

/-- Every code unit of the string is a Latin-1 character other than NUL. -/
def IsLatin1 (s : QString) : Prop := ∀ u ∈ s, 0 < u ∧ u ≤ 0xff

/-- The result of a `catch` block that calls `PyErr_Print` with the error `e`
pending in interpreter state `py`. -/
def printedResult {σ : Type} (h : Host σ) (py : σ) (e : PyErr) :
    Except Abrupt (Option PythonPlugin) :=
  if (PyErr_PrintEx h py e).exits then Except.error Abrupt.exited else Except.ok none

/-- The world after such a `catch` block, entered from `w` after the calls
`calls`. -/
def printedWorld {σ : Type} (h : Host σ) (w : World σ) (py : σ) (e : PyErr)
    (calls : List Event) : World σ :=
  { py := (PyErr_PrintEx h py e).py, pyErr := none,
    pyStderr := w.pyStderr ++ (PyErr_PrintEx h py e).written,
    pyPrinted := if (PyErr_PrintEx h py e).shown then w.pyPrinted ++ [e] else w.pyPrinted,
    log := w.log, calls := w.calls ++ calls }

/-! ## Sample hosts -/

/-- The call a sample host answers with a failure, if any. -/
inductive Fault where
  | nowhere
  | openFile
  | compile
  | exec
  | lookup (err : PyErr)
  | convert
  | call
deriving DecidableEq, Repr

/-- A sample `AttributeError`, of the builtin class (the sample hosts have
the builtin classes `SystemExit`, `AttributeError` and `TypeError` at the
objects 1, 2 and 4). -/
def sampleAttributeError : PyErr := { type := ⟨2⟩, value := ⟨62⟩ }

/-- A sample `TypeError`. -/
def sampleTypeError : PyErr := { type := ⟨4⟩, value := ⟨63⟩ }

/-- A sample `SystemExit`, as `raise SystemExit(3)` or `sys.exit(3)` raises it. -/
def sampleSystemExit : PyErr := { type := ⟨1⟩, value := ⟨64⟩ }

/-- A sample error of a class (object 100) that the script defines under the
name `AttributeError` without deriving it from the builtin class. -/
def sampleScriptError : PyErr := { type := ⟨100⟩, value := ⟨65⟩ }

/-- A sample host: its interpreter counts the calls made to it, hands out the
objects 10, 20, 30, 40 and 50, and fails at the call `f` names, with the error
`raised` (a failed lookup with the error `f` carries).  Its errors are
instances of exactly their class, the inspect flag is unset, and the installed
`sys.excepthook` writes one traceback, or nothing when `silent`. -/
def sampleHostWith (f : Fault) (raised : PyErr) (silent : Bool) : Host Nat where
  QFile_open := fun _ => match f with
    | Fault.openFile => false
    | _ => true
  QFile_readAll := fun _ => fromAscii "class Plugin: pass"
  toUtf8 := fun s => s
  Py_CompileString := fun s _ _ => match f with
    | Fault.compile => (Except.error raised, s + 1)
    | _ => (Except.ok ⟨10⟩, s + 1)
  PyImport_ExecCodeModule := fun s _ _ => match f with
    | Fault.exec => (Except.error raised, s + 1)
    | _ => (Except.ok ⟨20⟩, s + 1)
  PyObject_GetAttrString := fun s _ _ => match f with
    | Fault.lookup err => (Except.error err, s + 1)
    | _ => (Except.ok ⟨30⟩, s + 1)
  reference_existing_object := fun s _ => match f with
    | Fault.convert => (Except.error raised, s + 1)
    | _ => (Except.ok ⟨40⟩, s + 1)
  PyEval_CallFunction := fun s _ _ => match f with
    | Fault.call => (Except.error raised, s + 1)
    | _ => (Except.ok ⟨50⟩, s + 1)
  PyExc_AttributeError := ⟨2⟩
  PyExc_SystemExit := ⟨1⟩
  PyErr_GivenExceptionMatches := fun _ e cls => e.type == cls
  Py_InspectFlag := fun _ => false
  handle_system_exit := fun s _ => ([], s)
  sys_excepthook := fun s _ =>
    (if silent then [] else ["Traceback (most recent call last):"], false, s + 1)

/-- The sample host whose failing call raises a `TypeError` and whose
`sys.excepthook` is the default one. -/
def sampleHost (f : Fault) : Host Nat := sampleHostWith f sampleTypeError false

/-- A sample language object, for the application handle at address 7. -/
def sampleLanguage : PythonLanguage := PythonLanguage.new ⟨7⟩

/-- A sample plugin, with id `radio`. -/
def samplePlugin : AvailablePlugin :=
  { path_ := fromAscii "/plugins/radio", id_ := fromAscii "radio" }

/-- A sample world: nothing pending, nothing written or logged, no call made. -/
def sampleWorld : World Nat :=
  { py := 0, pyErr := none, pyStderr := [], pyPrinted := [], log := [], calls := [] }

/-- Every run of `LoadPlugin` takes one of eight paths, told apart by the
answers of the external calls; each premise gives the result and the final
world of its path. -/
theorem LoadPlugin_cases {σ : Type} (h : Host σ) (self : PythonLanguage)
    (plugin : AvailablePlugin) (w : World σ)
    (P : Except Abrupt (Option PythonPlugin) × World σ → Prop)
    (hopen : h.QFile_open (mainFile plugin) = false →
      P (Except.ok none,
        { w with
          log := w.log ++ [[LogItem.cstr "Couldn't open Python file",
            LogItem.qstring (mainFile plugin)]],
          calls := w.calls ++ [⟨Call.QFile_open (mainFile plugin), false⟩] }))
    (hcompile : ∀ e s1, h.QFile_open (mainFile plugin) = true →
      h.Py_CompileString w.py (mainSource h plugin) (mainFileUtf8 h plugin)
        = (Except.error e, s1) →
      P (printedResult h s1 e,
        printedWorld h w s1 e [⟨Call.QFile_open (mainFile plugin), true⟩,
          ⟨Call.Py_CompileString (mainSource h plugin) (mainFileUtf8 h plugin), false⟩]))
    (hexec : ∀ code s1 e s2, h.QFile_open (mainFile plugin) = true →
      h.Py_CompileString w.py (mainSource h plugin) (mainFileUtf8 h plugin)
        = (Except.ok code, s1) →
      h.PyImport_ExecCodeModule s1 (moduleName plugin) code = (Except.error e, s2) →
      P (printedResult h s2 e,
        printedWorld h w s2 e (callsCompiled h plugin ++
          [⟨Call.PyImport_ExecCodeModule (moduleName plugin) code, false⟩])))
    (hattr : ∀ code s1 module s2 e s3, h.QFile_open (mainFile plugin) = true →
      h.Py_CompileString w.py (mainSource h plugin) (mainFileUtf8 h plugin)
        = (Except.ok code, s1) →
      h.PyImport_ExecCodeModule s1 (moduleName plugin) code = (Except.ok module, s2) →
      h.PyObject_GetAttrString s2 module "Plugin" = (Except.error e, s3) →
      h.PyErr_GivenExceptionMatches s3 e h.PyExc_AttributeError = true →
      P (Except.ok none,
        { py := s3, pyErr := none, pyStderr := w.pyStderr, pyPrinted := w.pyPrinted,
          log := w.log ++ [[LogItem.qstring plugin.id_,
            LogItem.cstr ": You must define a class called 'Plugin' in __main__.py"]],
          calls := w.calls ++ (callsCompiled h plugin ++
            [⟨Call.PyImport_ExecCodeModule (moduleName plugin) code, true⟩,
             ⟨Call.getattr module "Plugin", false⟩]) }))
    (hother : ∀ code s1 module s2 e s3, h.QFile_open (mainFile plugin) = true →
      h.Py_CompileString w.py (mainSource h plugin) (mainFileUtf8 h plugin)
        = (Except.ok code, s1) →
      h.PyImport_ExecCodeModule s1 (moduleName plugin) code = (Except.ok module, s2) →
      h.PyObject_GetAttrString s2 module "Plugin" = (Except.error e, s3) →
      h.PyErr_GivenExceptionMatches s3 e h.PyExc_AttributeError = false →
      P (printedResult h s3 e,
        printedWorld h w s3 e (callsCompiled h plugin ++
          [⟨Call.PyImport_ExecCodeModule (moduleName plugin) code, true⟩,
           ⟨Call.getattr module "Plugin", false⟩])))
    (hwrap : ∀ code s1 module s2 plugin_class s3 e s4,
      h.QFile_open (mainFile plugin) = true →
      h.Py_CompileString w.py (mainSource h plugin) (mainFileUtf8 h plugin)
        = (Except.ok code, s1) →
      h.PyImport_ExecCodeModule s1 (moduleName plugin) code = (Except.ok module, s2) →
      h.PyObject_GetAttrString s2 module "Plugin" = (Except.ok plugin_class, s3) →
      h.reference_existing_object s3 self.clementine_ = (Except.error e, s4) →
      P (printedResult h s4 e,
        printedWorld h w s4 e (callsCompiled h plugin ++
          [⟨Call.PyImport_ExecCodeModule (moduleName plugin) code, true⟩,
           ⟨Call.getattr module "Plugin", true⟩,
           ⟨Call.to_python self.clementine_, false⟩])))
    (hcall : ∀ code s1 module s2 plugin_class s3 py_app s4 e s5,
      h.QFile_open (mainFile plugin) = true →
      h.Py_CompileString w.py (mainSource h plugin) (mainFileUtf8 h plugin)
        = (Except.ok code, s1) →
      h.PyImport_ExecCodeModule s1 (moduleName plugin) code = (Except.ok module, s2) →
      h.PyObject_GetAttrString s2 module "Plugin" = (Except.ok plugin_class, s3) →
      h.reference_existing_object s3 self.clementine_ = (Except.ok py_app, s4) →
      h.PyEval_CallFunction s4 plugin_class [py_app] = (Except.error e, s5) →
      P (printedResult h s5 e,
        printedWorld h w s5 e (callsCompiled h plugin ++
          [⟨Call.PyImport_ExecCodeModule (moduleName plugin) code, true⟩,
           ⟨Call.getattr module "Plugin", true⟩,
           ⟨Call.to_python self.clementine_, true⟩,
           ⟨Call.call plugin_class [py_app], false⟩])))
    (hdone : ∀ code s1 module s2 plugin_class s3 py_app s4 py_object s5,
      h.QFile_open (mainFile plugin) = true →
      h.Py_CompileString w.py (mainSource h plugin) (mainFileUtf8 h plugin)
        = (Except.ok code, s1) →
      h.PyImport_ExecCodeModule s1 (moduleName plugin) code = (Except.ok module, s2) →
      h.PyObject_GetAttrString s2 module "Plugin" = (Except.ok plugin_class, s3) →
      h.reference_existing_object s3 self.clementine_ = (Except.ok py_app, s4) →
      h.PyEval_CallFunction s4 plugin_class [py_app] = (Except.ok py_object, s5) →
      P (Except.ok (some (PythonPlugin.new py_object self.clementine_ plugin)),
        { py := s5, pyErr := w.pyErr, pyStderr := w.pyStderr, pyPrinted := w.pyPrinted,
          log := w.log,
          calls := w.calls ++ (callsCompiled h plugin ++
            [⟨Call.PyImport_ExecCodeModule (moduleName plugin) code, true⟩,
             ⟨Call.getattr module "Plugin", true⟩,
             ⟨Call.to_python self.clementine_, true⟩,
             ⟨Call.call plugin_class [py_app], true⟩]) }))
    : P (LoadPlugin h self plugin w) := by
  have hf : plugin.path_ ++ fromAscii "/__main__.py" = mainFile plugin := rfl
  have hprint : ∀ (py : σ) (e : PyErr) (l : List Event),
      clearAndReturnNull (PyErr_Print h
        { py := py, pyErr := some e, pyStderr := w.pyStderr, pyPrinted := w.pyPrinted,
          log := w.log, calls := w.calls ++ l })
        = (printedResult h py e, printedWorld h w py e l) := by
    intro py e l
    by_cases hex : (PyErr_PrintEx h py e).exits = true
    · simp [clearAndReturnNull, PyErr_Print, printedResult, printedWorld, hex]
    · simp [clearAndReturnNull, PyErr_Print, PyErr_Clear, printedResult, printedWorld, hex]
  simp only [LoadPlugin, QFile_open, hf]
  cases ho : h.QFile_open (mainFile plugin)
  · simpa [qLog_Warning] using hopen ho
  · have hs : data (h.QFile_readAll (mainFile plugin)) = mainSource h plugin := rfl
    have hu : data (h.toUtf8 (mainFile plugin)) = mainFileUtf8 h plugin := rfl
    simp only [hs, hu]
    rcases hc : h.Py_CompileString w.py (mainSource h plugin) (mainFileUtf8 h plugin)
      with ⟨e | code, s1⟩
    · have := hcompile e s1 ho hc
      simp only [pyCall, List.append_assoc, List.singleton_append]
      rw [hprint]
      exact this
    · simp only [pyCall]
      rcases hx : h.PyImport_ExecCodeModule s1 (moduleName plugin) code with ⟨e | module, s2⟩
      · have := hexec code s1 e s2 ho hc hx
        simp only [List.append_assoc, List.singleton_append]
        rw [hprint]
        simpa [callsCompiled] using this
      · simp only []
        rcases ha : h.PyObject_GetAttrString s2 module "Plugin" with ⟨e | plugin_class, s3⟩
        · simp only [PyErr_ExceptionMatches, List.append_assoc, List.singleton_append]
          by_cases hm : h.PyErr_GivenExceptionMatches s3 e h.PyExc_AttributeError = true
          · have := hattr code s1 module s2 e s3 ho hc hx ha hm
            simp only [if_pos hm]
            simpa [clearAndReturnNull, PyErr_Clear, qLog_Warning, callsCompiled] using this
          · have := hother code s1 module s2 e s3 ho hc hx ha (by simpa using hm)
            simp only [if_neg hm]
            rw [hprint]
            simpa [callsCompiled] using this
        · simp only []
          rcases hw : h.reference_existing_object s3 self.clementine_ with ⟨e | py_app, s4⟩
          · have := hwrap code s1 module s2 plugin_class s3 e s4 ho hc hx ha hw
            simp only [List.append_assoc, List.singleton_append]
            rw [hprint]
            simpa [callsCompiled] using this
          · simp only []
            rcases hp : h.PyEval_CallFunction s4 plugin_class [py_app] with ⟨e | py_object, s5⟩
            · have := hcall code s1 module s2 plugin_class s3 py_app s4 e s5 ho hc hx ha hw hp
              simp only [List.append_assoc, List.singleton_append]
              rw [hprint]
              simpa [callsCompiled] using this
            · simpa [callsCompiled]
                using hdone code s1 module s2 plugin_class s3 py_app s4 py_object s5
                  ho hc hx ha hw hp

/-- The calls a later world records beyond an earlier one. -/
@[simp]
theorem newCalls_mk {σ : Type} (w : World σ) (py : σ) (err : Option PyErr)
    (out : List String) (shown : List PyErr) (lines : List (List LogItem)) (l : List Event) :
    newCalls w
      { py := py, pyErr := err, pyStderr := out, pyPrinted := shown, log := lines,
        calls := w.calls ++ l } = l := by
  simp [newCalls]

/-- The calls recorded up to a `catch` block that prints. -/
@[simp]
theorem newCalls_printedWorld {σ : Type} (h : Host σ) (w : World σ) (py : σ) (e : PyErr)
    (l : List Event) : newCalls w (printedWorld h w py e l) = l := by
  simp [printedWorld]

/-- A `catch` block that prints records no call of its own. -/
@[simp]
theorem printedWorld_calls {σ : Type} (h : Host σ) (w : World σ) (py : σ) (e : PyErr)
    (l : List Event) : (printedWorld h w py e l).calls = w.calls ++ l := rfl

/-- A `catch` block that prints leaves the error indicator clear. -/
@[simp]
theorem printedWorld_pyErr {σ : Type} (h : Host σ) (w : World σ) (py : σ) (e : PyErr)
    (l : List Event) : (printedWorld h w py e l).pyErr = none := rfl

/-- A `catch` block that prints adds nothing to the host's log. -/
@[simp]
theorem printedWorld_log {σ : Type} (h : Host σ) (w : World σ) (py : σ) (e : PyErr)
    (l : List Event) : (printedWorld h w py e l).log = w.log := rfl

/-- A `catch` block that prints never yields a plugin. -/
theorem printedResult_ne_some {σ : Type} (h : Host σ) (py : σ) (e : PyErr)
    (p : PythonPlugin) : printedResult h py e ≠ Except.ok (some p) := by
  unfold printedResult
  split <;> simp

/-! ## Sample runs -/

/-- The sample plugin is executed under the module name `clementineplugin_radio`,
and its script is read from `/plugins/radio/__main__.py`. -/
theorem sample_names :
    moduleName samplePlugin = fromAscii "clementineplugin_radio" ∧
      mainFile samplePlugin = fromAscii "/plugins/radio/__main__.py" := by
  decide

/-- When the file cannot be opened: `NULL`, one warning, no interpreter call. -/
theorem sample_run_open_failure :
    LoadPlugin (sampleHost Fault.openFile) sampleLanguage samplePlugin sampleWorld
      = (Except.ok none,
          { py := 0, pyErr := none, pyStderr := [], pyPrinted := [],
            log := [[LogItem.cstr "Couldn't open Python file",
              LogItem.qstring (fromAscii "/plugins/radio/__main__.py")]],
            calls := [⟨Call.QFile_open (fromAscii "/plugins/radio/__main__.py"), false⟩] }) := by
  rfl

/-- When the module has no attribute `Plugin`: `NULL`, one warning that begins
with the plugin id, nothing printed, the error indicator cleared. -/
theorem sample_run_missing_Plugin :
    LoadPlugin (sampleHost (Fault.lookup sampleAttributeError)) sampleLanguage samplePlugin
        sampleWorld
      = (Except.ok none,
          { py := 3, pyErr := none, pyStderr := [], pyPrinted := [],
            log := [[LogItem.qstring (fromAscii "radio"),
              LogItem.cstr ": You must define a class called 'Plugin' in __main__.py"]],
            calls := [⟨Call.QFile_open (fromAscii "/plugins/radio/__main__.py"), true⟩,
              ⟨Call.Py_CompileString (fromAscii "class Plugin: pass")
                (fromAscii "/plugins/radio/__main__.py"), true⟩,
              ⟨Call.PyImport_ExecCodeModule (fromAscii "clementineplugin_radio") ⟨10⟩, true⟩,
              ⟨Call.getattr ⟨20⟩ "Plugin", false⟩] }) := by
  rfl

/-- When the lookup raises an error of a class that the script itself named
`AttributeError`: the class object is not the builtin one, so the error goes
to `PyErr_Print` and no warning is logged. -/
theorem sample_run_script_AttributeError :
    (LoadPlugin (sampleHost (Fault.lookup sampleScriptError)) sampleLanguage samplePlugin
        sampleWorld).1 = Except.ok none ∧
      (LoadPlugin (sampleHost (Fault.lookup sampleScriptError)) sampleLanguage samplePlugin
        sampleWorld).2.log = [] ∧
      (LoadPlugin (sampleHost (Fault.lookup sampleScriptError)) sampleLanguage samplePlugin
        sampleWorld).2.pyPrinted = [sampleScriptError] := by
  refine ⟨rfl, ?_, ?_⟩ <;> decide

/-- When the call of the class raises a `TypeError`: `NULL`, the error handed
to `sys.excepthook`, one traceback written, six calls made. -/
theorem sample_run_call_failure :
    (LoadPlugin (sampleHost Fault.call) sampleLanguage samplePlugin sampleWorld).1
        = Except.ok none ∧
      (LoadPlugin (sampleHost Fault.call) sampleLanguage samplePlugin sampleWorld).2.pyPrinted
        = [sampleTypeError] ∧
      (LoadPlugin (sampleHost Fault.call) sampleLanguage samplePlugin sampleWorld).2.pyStderr
        = ["Traceback (most recent call last):"] ∧
      (LoadPlugin (sampleHost Fault.call) sampleLanguage samplePlugin sampleWorld).2.log = [] ∧
      ((LoadPlugin (sampleHost Fault.call) sampleLanguage samplePlugin sampleWorld).2.calls.map
        fun e => (e.call.index, e.ok))
        = [(0, true), (1, true), (2, true), (3, true), (4, true), (5, false)] := by
  refine ⟨rfl, ?_, ?_, ?_, ?_⟩ <;> decide

/-! ## C1 -/

/-- With the inspect flag unset, `PyErr_PrintEx` ends the process on an error
that matches `SystemExit`. -/
theorem PyErr_PrintEx_exits_of_SystemExit {σ : Type} (h : Host σ) (py : σ) (e : PyErr)
    (hi : h.Py_InspectFlag py = false)
    (hm : h.PyErr_GivenExceptionMatches py e h.PyExc_SystemExit = true) :
    (PyErr_PrintEx h py e).exits = true := by
  simp [PyErr_PrintEx, hi, hm]

/-- C1, as stated, fails: on a host whose script raises `SystemExit` while it
is executed as a module, the compile-and-execute step fails, and `LoadPlugin`
does not return `NULL`: the process ends inside `PyErr_Print`. -/
theorem LoadPlugin_SystemExit_ends_process :
    (loadSteps (sampleHostWith Fault.exec sampleSystemExit false) sampleLanguage.clementine_
        samplePlugin sampleWorld.py).failedStep = some Step.compileExec ∧
      (LoadPlugin (sampleHostWith Fault.exec sampleSystemExit false) sampleLanguage
        samplePlugin sampleWorld).1 = Except.error Abrupt.exited ∧
      (LoadPlugin (sampleHostWith Fault.exec sampleSystemExit false) sampleLanguage
        samplePlugin sampleWorld).1 ≠ Except.ok none := by
  refine ⟨by decide, rfl, ?_⟩
  rw [show (LoadPlugin (sampleHostWith Fault.exec sampleSystemExit false) sampleLanguage
        samplePlugin sampleWorld).1 = Except.error Abrupt.exited from rfl]
  simp

/-- C1, amended: `LoadPlugin` never lets an exception escape.  It returns
`NULL` exactly when the host fails one of the four steps (open
`<path>/__main__.py`, compile and execute its text, look up `Plugin`,
instantiate) and the failure does not end the process; it ends the process,
inside `PyErr_Print`, exactly when the failure is one that does (as a
`SystemExit` from compile, execute or instantiate with the inspect flag
unset); and it returns a plugin exactly when no step fails, the plugin then
holding the instance the last step returned. -/
theorem LoadPlugin_null_iff_step_fails_and_returns {σ : Type} (h : Host σ)
    (self : PythonLanguage) (plugin : AvailablePlugin) (w : World σ) :
    ((LoadPlugin h self plugin w).1 = Except.ok none ↔
        (loadSteps h self.clementine_ plugin w.py).failedStep ≠ none ∧
          (loadSteps h self.clementine_ plugin w.py).endsProcess h = false) ∧
      ((LoadPlugin h self plugin w).1 = Except.error Abrupt.exited ↔
        (loadSteps h self.clementine_ plugin w.py).endsProcess h = true) ∧
      ((∃ p, (LoadPlugin h self plugin w).1 = Except.ok (some p)) ↔
        (loadSteps h self.clementine_ plugin w.py).failedStep = none) ∧
      (∀ py_object py,
        loadSteps h self.clementine_ plugin w.py = StepsOutcome.allSucceeded py_object py →
          (LoadPlugin h self plugin w).1
            = Except.ok (some (PythonPlugin.new py_object self.clementine_ plugin))) ∧
      (∀ x, (LoadPlugin h self plugin w).1 ≠ Except.error (Abrupt.thrown x)) ∧
      (∀ e py,
        (loadSteps h self.clementine_ plugin w.py = StepsOutcome.compileExecFailed e py ∨
          loadSteps h self.clementine_ plugin w.py = StepsOutcome.instantiateFailed e py) →
        h.Py_InspectFlag py = false →
        h.PyErr_GivenExceptionMatches py e h.PyExc_SystemExit = true →
          (LoadPlugin h self plugin w).1 = Except.error Abrupt.exited) := by
  have main :
      ((LoadPlugin h self plugin w).1 = Except.ok none ↔
        (loadSteps h self.clementine_ plugin w.py).failedStep ≠ none ∧
          (loadSteps h self.clementine_ plugin w.py).endsProcess h = false) ∧
      ((LoadPlugin h self plugin w).1 = Except.error Abrupt.exited ↔
        (loadSteps h self.clementine_ plugin w.py).endsProcess h = true) ∧
      ((∃ p, (LoadPlugin h self plugin w).1 = Except.ok (some p)) ↔
        (loadSteps h self.clementine_ plugin w.py).failedStep = none) ∧
      (∀ py_object py,
        loadSteps h self.clementine_ plugin w.py = StepsOutcome.allSucceeded py_object py →
          (LoadPlugin h self plugin w).1
            = Except.ok (some (PythonPlugin.new py_object self.clementine_ plugin))) ∧
      (∀ x, (LoadPlugin h self plugin w).1 ≠ Except.error (Abrupt.thrown x)) := by
    apply LoadPlugin_cases h self plugin w (fun r =>
      (r.1 = Except.ok none ↔
        (loadSteps h self.clementine_ plugin w.py).failedStep ≠ none ∧
          (loadSteps h self.clementine_ plugin w.py).endsProcess h = false) ∧
      (r.1 = Except.error Abrupt.exited ↔
        (loadSteps h self.clementine_ plugin w.py).endsProcess h = true) ∧
      ((∃ p, r.1 = Except.ok (some p)) ↔
        (loadSteps h self.clementine_ plugin w.py).failedStep = none) ∧
      (∀ py_object py,
        loadSteps h self.clementine_ plugin w.py = StepsOutcome.allSucceeded py_object py →
          r.1 = Except.ok (some (PythonPlugin.new py_object self.clementine_ plugin))) ∧
      (∀ x, r.1 ≠ Except.error (Abrupt.thrown x)))
    all_goals intros
    all_goals simp only [loadSteps, *]
    all_goals simp only [StepsOutcome.failedStep, StepsOutcome.endsProcess, printedResult]
    all_goals first
      | (split_ifs <;> simp_all)
      | simp_all
  obtain ⟨h1, h2, h3, h4, h5⟩ := main
  refine ⟨h1, h2, h3, h4, h5, ?_⟩
  intro e py hfail hi hm
  rw [h2]
  have hex := PyErr_PrintEx_exits_of_SystemExit h py e hi hm
  rcases hfail with hfail | hfail <;> rw [hfail] <;> exact hex

/-! ## C2 -/

/-- C2: when `LoadPlugin`, on a language object constructed with the handle
`clem`, returns a plugin, the class it instantiated is the value of the
attribute `Plugin` of the module that executing the script gave, the class was
called once, with the one argument that wraps `clem`, and the plugin holds the
instance that call returned, the handle `clem` and the given plugin info. -/
theorem LoadPlugin_success_instantiates_Plugin {σ : Type} (h : Host σ)
    (clem : ClementinePtr) (plugin : AvailablePlugin) (w : World σ) (p : PythonPlugin)
    (hp : (LoadPlugin h (PythonLanguage.new clem) plugin w).1 = Except.ok (some p)) :
    ∃ code s1 module s2 plugin_class s3 py_app s4 s5,
      h.Py_CompileString w.py (mainSource h plugin) (mainFileUtf8 h plugin)
        = (Except.ok code, s1) ∧
      h.PyImport_ExecCodeModule s1 (moduleName plugin) code = (Except.ok module, s2) ∧
      h.PyObject_GetAttrString s2 module "Plugin" = (Except.ok plugin_class, s3) ∧
      h.reference_existing_object s3 clem = (Except.ok py_app, s4) ∧
      h.PyEval_CallFunction s4 plugin_class [py_app] = (Except.ok p.py_object_, s5) ∧
      (newCalls w (LoadPlugin h (PythonLanguage.new clem) plugin w).2).filter
          (fun e => e.call.index == 5)
        = [⟨Call.call plugin_class [py_app], true⟩] ∧
      p.clementine_ = clem ∧ p.plugin_info_ = plugin := by
  revert hp
  apply LoadPlugin_cases h (PythonLanguage.new clem) plugin w
    (fun r => r.1 = Except.ok (some p) →
    ∃ code s1 module s2 plugin_class s3 py_app s4 s5,
      h.Py_CompileString w.py (mainSource h plugin) (mainFileUtf8 h plugin)
        = (Except.ok code, s1) ∧
      h.PyImport_ExecCodeModule s1 (moduleName plugin) code = (Except.ok module, s2) ∧
      h.PyObject_GetAttrString s2 module "Plugin" = (Except.ok plugin_class, s3) ∧
      h.reference_existing_object s3 clem = (Except.ok py_app, s4) ∧
      h.PyEval_CallFunction s4 plugin_class [py_app] = (Except.ok p.py_object_, s5) ∧
      (newCalls w r.2).filter (fun e => e.call.index == 5)
        = [⟨Call.call plugin_class [py_app], true⟩] ∧
      p.clementine_ = clem ∧ p.plugin_info_ = plugin)
  case hdone =>
    intro code s1 module s2 plugin_class s3 py_app s4 py_object s5 _ hc hx ha hw hcl hp
    have hp2 : PythonPlugin.new py_object clem plugin = p := by
      simpa [PythonLanguage.new] using hp
    subst hp2
    exact ⟨code, s1, module, s2, plugin_class, s3, py_app, s4, s5, hc, hx, ha, hw, hcl,
      by simp [callsCompiled, Call.index], rfl, rfl⟩
  all_goals intros
  all_goals first
    | (exfalso; exact printedResult_ne_some _ _ _ _ (by assumption))
    | simp_all

/-- A run of C2: the sample host without a fault loads the sample plugin for
the language object constructed with the handle at address 7; the class is
object 30, the attribute `Plugin` of module 20, called with the wrapped handle
40, and the plugin holds the instance 50 and the handle at address 7. -/
theorem LoadPlugin_success_instantiates_Plugin_witness :
    (LoadPlugin (sampleHost Fault.nowhere) (PythonLanguage.new ⟨7⟩) samplePlugin
        sampleWorld).1 = Except.ok (some (PythonPlugin.new ⟨50⟩ ⟨7⟩ samplePlugin)) ∧
    ∃ code s1 module s2 plugin_class s3 py_app s4 s5,
      (sampleHost Fault.nowhere).Py_CompileString sampleWorld.py
          (mainSource (sampleHost Fault.nowhere) samplePlugin)
          (mainFileUtf8 (sampleHost Fault.nowhere) samplePlugin)
        = (Except.ok code, s1) ∧
      (sampleHost Fault.nowhere).PyImport_ExecCodeModule s1 (moduleName samplePlugin) code
        = (Except.ok module, s2) ∧
      (sampleHost Fault.nowhere).PyObject_GetAttrString s2 module "Plugin"
        = (Except.ok plugin_class, s3) ∧
      (sampleHost Fault.nowhere).reference_existing_object s3 ⟨7⟩
        = (Except.ok py_app, s4) ∧
      (sampleHost Fault.nowhere).PyEval_CallFunction s4 plugin_class [py_app]
        = (Except.ok (PythonPlugin.new ⟨50⟩ ⟨7⟩ samplePlugin).py_object_, s5) ∧
      (newCalls sampleWorld
          (LoadPlugin (sampleHost Fault.nowhere) (PythonLanguage.new ⟨7⟩) samplePlugin
            sampleWorld).2).filter
          (fun e => e.call.index == 5)
        = [⟨Call.call plugin_class [py_app], true⟩] ∧
      (PythonPlugin.new ⟨50⟩ ⟨7⟩ samplePlugin).clementine_ = ⟨7⟩ ∧
      (PythonPlugin.new ⟨50⟩ ⟨7⟩ samplePlugin).plugin_info_ = samplePlugin :=
  ⟨rfl,
    LoadPlugin_success_instantiates_Plugin (sampleHost Fault.nowhere) ⟨7⟩
      samplePlugin sampleWorld (PythonPlugin.new ⟨50⟩ ⟨7⟩ samplePlugin) rfl⟩

/-! ## C3 -/

/-- A run of `LoadPlugin` in which the host fails a step returns no plugin. -/
theorem LoadPlugin_no_plugin_of_failedStep {σ : Type} (h : Host σ) (self : PythonLanguage)
    (plugin : AvailablePlugin) (w : World σ) (s : Step)
    (hs : (loadSteps h self.clementine_ plugin w.py).failedStep = some s)
    (p : PythonPlugin) : (LoadPlugin h self plugin w).1 ≠ Except.ok (some p) := by
  revert hs
  apply LoadPlugin_cases h self plugin w (fun r =>
    (loadSteps h self.clementine_ plugin w.py).failedStep = some s →
      r.1 ≠ Except.ok (some p))
  case hopen =>
    intros
    simp
  case hattr =>
    intros
    simp
  case hdone =>
    intros
    simp_all [loadSteps, StepsOutcome.failedStep]
  all_goals intros
  all_goals exact printedResult_ne_some _ _ _ _

/-- Each of the four steps is a failure point of `LoadPlugin`. -/
theorem isFailurePoint_all (s : Step) : IsFailurePoint s := by
  refine ⟨?_, fun σ h self plugin w hs p =>
    LoadPlugin_no_plugin_of_failedStep h self plugin w s hs p⟩
  cases s
  · exact ⟨sampleHost Fault.openFile, sampleLanguage, samplePlugin, sampleWorld,
      by decide, rfl⟩
  · exact ⟨sampleHost Fault.compile, sampleLanguage, samplePlugin, sampleWorld,
      by decide, rfl⟩
  · exact ⟨sampleHost (Fault.lookup sampleAttributeError), sampleLanguage, samplePlugin,
      sampleWorld, by decide, rfl⟩
  · exact ⟨sampleHost Fault.call, sampleLanguage, samplePlugin, sampleWorld,
      by decide, rfl⟩

/-- The failure points of `LoadPlugin` are all of the steps, four in number. -/
theorem ncard_failurePoints : Set.ncard {s : Step | IsFailurePoint s} = 4 := by
  have hu : {s : Step | IsFailurePoint s} = Set.univ :=
    Set.eq_univ_of_forall isFailurePoint_all
  rw [hu, Set.ncard_univ, Nat.card_eq_fintype_card]
  rfl

/-- C4, as stated, fails: the number of steps of the load sequence whose
failure makes `LoadPlugin` return `NULL` is not three. -/
theorem LoadPlugin_failure_points_ne_three :
    ¬ Set.ncard {s : Step | IsFailurePoint s} = 3 := by
  rw [ncard_failurePoints]
  decide

/-- C4, amended: `LoadPlugin` has exactly four failure points, the steps open
the file, compile and execute, look up `Plugin`, and instantiate: each of
them can fail with `LoadPlugin` returning `NULL`, and a run in which one of
them fails never returns a plugin. -/
theorem LoadPlugin_four_failure_points :
    Set.ncard {s : Step | IsFailurePoint s} = 4 ∧
      ∀ s : Step, IsFailurePoint s := by
  exact ⟨ncard_failurePoints, isFailurePoint_all⟩

/-! ## C5 -/

/-- C5: each of the four delegate callbacks makes exactly one invocation, with
its argument unchanged: of the script's override under the callback's name
(`state_changed`, `volume_changed`, `position_changed`, `playlist_finished`)
when the script object defines one, and otherwise of the native
`PlayerDelegate` method. -/
theorem PlayerDelegateWrapper_dispatch (self : PlayerDelegateWrapper)
    (state : PlayerState) (percent microseconds : Int) (t : List Invocation) :
    ((∀ f, self.get_override "state_changed" = some f →
        self.StateChanged state t = t ++ [Invocation.script f [Value.state state]]) ∧
      (self.get_override "state_changed" = none →
        self.StateChanged state t
          = t ++ [Invocation.native NativeMethod.StateChanged [Value.state state]])) ∧
    ((∀ f, self.get_override "volume_changed" = some f →
        self.VolumeChanged percent t = t ++ [Invocation.script f [Value.int percent]]) ∧
      (self.get_override "volume_changed" = none →
        self.VolumeChanged percent t
          = t ++ [Invocation.native NativeMethod.VolumeChanged [Value.int percent]])) ∧
    ((∀ f, self.get_override "position_changed" = some f →
        self.PositionChanged microseconds t
          = t ++ [Invocation.script f [Value.qlonglong microseconds]]) ∧
      (self.get_override "position_changed" = none →
        self.PositionChanged microseconds t
          = t ++ [Invocation.native NativeMethod.PositionChanged
              [Value.qlonglong microseconds]])) ∧
    ((∀ f, self.get_override "playlist_finished" = some f →
        self.PlaylistFinished t = t ++ [Invocation.script f []]) ∧
      (self.get_override "playlist_finished" = none →
        self.PlaylistFinished t
          = t ++ [Invocation.native NativeMethod.PlaylistFinished []])) := by
  refine ⟨⟨?_, ?_⟩, ⟨?_, ?_⟩, ⟨?_, ?_⟩, ⟨?_, ?_⟩⟩
  · intro f hf
    simp [PlayerDelegateWrapper.StateChanged, hf]
  · intro hf
    simp [PlayerDelegateWrapper.StateChanged, PlayerDelegateWrapper.DefaultStateChanged, hf]
  · intro f hf
    simp [PlayerDelegateWrapper.VolumeChanged, hf]
  · intro hf
    simp [PlayerDelegateWrapper.VolumeChanged, PlayerDelegateWrapper.DefaultVolumeChanged, hf]
  · intro f hf
    simp [PlayerDelegateWrapper.PositionChanged, hf]
  · intro hf
    simp [PlayerDelegateWrapper.PositionChanged,
      PlayerDelegateWrapper.DefaultPositionChanged, hf]
  · intro f hf
    simp [PlayerDelegateWrapper.PlaylistFinished, hf]
  · intro hf
    simp [PlayerDelegateWrapper.PlaylistFinished,
      PlayerDelegateWrapper.DefaultPlaylistFinished, hf]

/-! ## C6 -/

/-- C6: the external calls of a run of `LoadPlugin` are made in the order
open, compile, execute as a module, look up `Plugin`, instantiate, and every
call but the last one made succeeded; when the open fails the interpreter is
not called and its state is unchanged; when compile or execute fails neither
the lookup nor the instantiation is attempted. -/
theorem LoadPlugin_linear_short_circuit {σ : Type} (h : Host σ) (self : PythonLanguage)
    (plugin : AvailablePlugin) (w : World σ) :
    (LoadPlugin h self plugin w).2.calls
        = w.calls ++ newCalls w (LoadPlugin h self plugin w).2 ∧
      (newCalls w (LoadPlugin h self plugin w).2).map (fun e => e.call.index)
        = List.range (newCalls w (LoadPlugin h self plugin w).2).length ∧
      (∀ e ∈ (newCalls w (LoadPlugin h self plugin w).2).dropLast, e.ok = true) ∧
      (stepFails (newCalls w (LoadPlugin h self plugin w).2) Step.openFile →
        (∀ e ∈ newCalls w (LoadPlugin h self plugin w).2, e.call.isInterpreter = false) ∧
          (LoadPlugin h self plugin w).2.py = w.py) ∧
      (stepFails (newCalls w (LoadPlugin h self plugin w).2) Step.compileExec →
        ∀ e ∈ newCalls w (LoadPlugin h self plugin w).2,
          e.call.step ≠ Step.lookup ∧ e.call.step ≠ Step.instantiate) := by
  apply LoadPlugin_cases h self plugin w (fun r =>
    r.2.calls = w.calls ++ newCalls w r.2 ∧
      (newCalls w r.2).map (fun e => e.call.index) = List.range (newCalls w r.2).length ∧
      (∀ e ∈ (newCalls w r.2).dropLast, e.ok = true) ∧
      (stepFails (newCalls w r.2) Step.openFile →
        (∀ e ∈ newCalls w r.2, e.call.isInterpreter = false) ∧ r.2.py = w.py) ∧
      (stepFails (newCalls w r.2) Step.compileExec →
        ∀ e ∈ newCalls w r.2, e.call.step ≠ Step.lookup ∧ e.call.step ≠ Step.instantiate))
  all_goals intros
  all_goals simp [stepFails, Call.step, Call.index, Call.isInterpreter, callsCompiled,
    List.range_succ, List.dropLast]

/-! ## C7 -/

/-- C7: `UnloadPlugin` changes nothing: the language object, the plugin with
the script instance it holds, and the world, interpreter state included, come
back as they were given. -/
theorem UnloadPlugin_changes_nothing {σ : Type} (self : PythonLanguage)
    (plugin : PythonPlugin) (w : World σ) :
    UnloadPlugin self plugin w = (self, plugin, w) ∧
      (UnloadPlugin self plugin w).2.1.py_object_ = plugin.py_object_ ∧
      (UnloadPlugin self plugin w).2.2.py = w.py := by
  exact ⟨rfl, rfl, rfl⟩

/-! ## C8 -/

/-- C8: if no interpreter error is pending when `LoadPlugin` is entered, none
is pending when it returns, whichever path it took. -/
theorem LoadPlugin_leaves_no_pending_error {σ : Type} (h : Host σ) (self : PythonLanguage)
    (plugin : AvailablePlugin) (w : World σ) (hw : w.pyErr = none) :
    (LoadPlugin h self plugin w).2.pyErr = none := by
  apply LoadPlugin_cases h self plugin w (fun r => r.2.pyErr = none)
  all_goals intros
  all_goals first | rfl | exact hw

/-- A run of C8: the sample world has no error pending, and none is pending
after a load whose compile step fails. -/
theorem LoadPlugin_leaves_no_pending_error_witness :
    sampleWorld.pyErr = none ∧
      (LoadPlugin (sampleHost Fault.compile) sampleLanguage samplePlugin sampleWorld).2.pyErr
        = none :=
  ⟨rfl, LoadPlugin_leaves_no_pending_error (sampleHost Fault.compile) sampleLanguage
    samplePlugin sampleWorld rfl⟩

/-! ## C9 -/

/-- C9, as stated, fails: when the lookup of `Plugin` raises `SystemExit`,
which is no `AttributeError`, the result is not `NULL` and the error is not
printed: the process ends inside `PyErr_Print`. -/
theorem LoadPlugin_lookup_SystemExit_ends_process :
    (sampleHost (Fault.lookup sampleSystemExit)).PyObject_GetAttrString 2 ⟨20⟩ "Plugin"
        = (Except.error sampleSystemExit, 3) ∧
      (sampleHost (Fault.lookup sampleSystemExit)).PyErr_GivenExceptionMatches 3
        sampleSystemExit (sampleHost (Fault.lookup sampleSystemExit)).PyExc_AttributeError
        = false ∧
      (LoadPlugin (sampleHost (Fault.lookup sampleSystemExit)) sampleLanguage samplePlugin
        sampleWorld).1 = Except.error Abrupt.exited ∧
      (LoadPlugin (sampleHost (Fault.lookup sampleSystemExit)) sampleLanguage samplePlugin
        sampleWorld).1 ≠ Except.ok none ∧
      (LoadPlugin (sampleHost (Fault.lookup sampleSystemExit)) sampleLanguage samplePlugin
        sampleWorld).2.pyPrinted = [] ∧
      (LoadPlugin (sampleHost (Fault.lookup sampleSystemExit)) sampleLanguage samplePlugin
        sampleWorld).2.pyStderr = [] := by
  refine ⟨rfl, by decide, rfl, ?_, by decide, by decide⟩
  rw [show (LoadPlugin (sampleHost (Fault.lookup sampleSystemExit)) sampleLanguage
        samplePlugin sampleWorld).1 = Except.error Abrupt.exited from rfl]
  simp

/-- C9, amended: when the lookup of `Plugin` on the executed module fails with
the error `e`: if the interpreter matches `e` with the class object
`AttributeError`, `LoadPlugin` returns `NULL`, the one report is the warning
line made of the plugin's id followed by the text that a class called `Plugin`
must be defined in `__main__.py`, and `PyErr_Print` is not called.  Otherwise
no warning is logged and `PyErr_Print` is called on `e`: when that ends the
process (as for a `SystemExit` with the inspect flag unset) `LoadPlugin` does
not return, and else `e` is handed to `sys.excepthook` and the result is
`NULL`. -/
theorem LoadPlugin_lookup_failure_diagnostic {σ : Type} (h : Host σ) (self : PythonLanguage)
    (plugin : AvailablePlugin) (w : World σ) (code module : PyObject) (e : PyErr)
    (s1 s2 s3 : σ)
    (ho : h.QFile_open (mainFile plugin) = true)
    (hc : h.Py_CompileString w.py (mainSource h plugin)
      (mainFileUtf8 h plugin) = (Except.ok code, s1))
    (hx : h.PyImport_ExecCodeModule s1 (moduleName plugin) code = (Except.ok module, s2))
    (ha : h.PyObject_GetAttrString s2 module "Plugin" = (Except.error e, s3)) :
    (h.PyErr_GivenExceptionMatches s3 e h.PyExc_AttributeError = true →
        (LoadPlugin h self plugin w).1 = Except.ok none ∧
          (LoadPlugin h self plugin w).2.log
            = w.log ++ [[LogItem.qstring plugin.id_,
                LogItem.cstr ": You must define a class called 'Plugin' in __main__.py"]] ∧
          (LoadPlugin h self plugin w).2.pyPrinted = w.pyPrinted ∧
          (LoadPlugin h self plugin w).2.pyStderr = w.pyStderr) ∧
      (h.PyErr_GivenExceptionMatches s3 e h.PyExc_AttributeError = false →
        (LoadPlugin h self plugin w).2.log = w.log ∧
          (LoadPlugin h self plugin w).2.pyStderr
            = w.pyStderr ++ (PyErr_PrintEx h s3 e).written ∧
          ((PyErr_PrintEx h s3 e).exits = true →
            (LoadPlugin h self plugin w).1 = Except.error Abrupt.exited) ∧
          ((PyErr_PrintEx h s3 e).exits = false →
            (LoadPlugin h self plugin w).1 = Except.ok none ∧
              (LoadPlugin h self plugin w).2.pyPrinted = w.pyPrinted ++ [e]) ∧
          (h.Py_InspectFlag s3 = false →
            h.PyErr_GivenExceptionMatches s3 e h.PyExc_SystemExit = true →
              (LoadPlugin h self plugin w).1 = Except.error Abrupt.exited ∧
                (LoadPlugin h self plugin w).2.pyPrinted = w.pyPrinted)) := by
  have key : ∀ (code2 : PyObject) (t1 : σ) (module2 : PyObject) (t2 : σ),
      h.Py_CompileString w.py (mainSource h plugin) (mainFileUtf8 h plugin)
        = (Except.ok code2, t1) →
      h.PyImport_ExecCodeModule t1 (moduleName plugin) code2 = (Except.ok module2, t2) →
      module2 = module ∧ t2 = s2 := by
    intro code2 t1 module2 t2 hc3 hx3
    rw [hc] at hc3
    obtain ⟨rfl, rfl⟩ : code = code2 ∧ s1 = t1 := by simpa using hc3
    rw [hx] at hx3
    obtain ⟨rfl, rfl⟩ : module = module2 ∧ s2 = t2 := by simpa using hx3
    exact ⟨rfl, rfl⟩
  apply LoadPlugin_cases h self plugin w (fun r =>
    (h.PyErr_GivenExceptionMatches s3 e h.PyExc_AttributeError = true →
        r.1 = Except.ok none ∧
          r.2.log = w.log ++ [[LogItem.qstring plugin.id_,
              LogItem.cstr ": You must define a class called 'Plugin' in __main__.py"]] ∧
          r.2.pyPrinted = w.pyPrinted ∧ r.2.pyStderr = w.pyStderr) ∧
      (h.PyErr_GivenExceptionMatches s3 e h.PyExc_AttributeError = false →
        r.2.log = w.log ∧
          r.2.pyStderr = w.pyStderr ++ (PyErr_PrintEx h s3 e).written ∧
          ((PyErr_PrintEx h s3 e).exits = true → r.1 = Except.error Abrupt.exited) ∧
          ((PyErr_PrintEx h s3 e).exits = false →
            r.1 = Except.ok none ∧ r.2.pyPrinted = w.pyPrinted ++ [e]) ∧
          (h.Py_InspectFlag s3 = false →
            h.PyErr_GivenExceptionMatches s3 e h.PyExc_SystemExit = true →
              r.1 = Except.error Abrupt.exited ∧ r.2.pyPrinted = w.pyPrinted)))
  case hopen =>
    intro ho2
    rw [ho] at ho2
    cases ho2
  case hcompile =>
    intro e2 t1 _ hc3
    rw [hc] at hc3
    simp at hc3
  case hexec =>
    intro code2 t1 e2 t2 _ hc3 hx3
    rw [hc] at hc3
    obtain ⟨rfl, rfl⟩ : code = code2 ∧ s1 = t1 := by simpa using hc3
    rw [hx] at hx3
    simp at hx3
  case hattr =>
    intro code2 t1 module2 t2 e2 t3 _ hc3 hx3 ha3 hm
    obtain ⟨rfl, rfl⟩ := key code2 t1 module2 t2 hc3 hx3
    rw [ha] at ha3
    obtain ⟨rfl, rfl⟩ : e = e2 ∧ s3 = t3 := by simpa using ha3
    simp [hm]
  case hother =>
    intro code2 t1 module2 t2 e2 t3 _ hc3 hx3 ha3 hm
    obtain ⟨rfl, rfl⟩ := key code2 t1 module2 t2 hc3 hx3
    rw [ha] at ha3
    obtain ⟨rfl, rfl⟩ : e = e2 ∧ s3 = t3 := by simpa using ha3
    refine ⟨by simp [hm], fun _ => ⟨rfl, rfl, ?_, ?_, ?_⟩⟩
    · intro hex
      simp [printedResult, hex]
    · intro hex
      have hs : (PyErr_PrintEx h s3 e).shown = true := by
        unfold PyErr_PrintEx at hex ⊢
        split
        · rename_i hcnd
          simp [hcnd] at hex
        · rfl
      simp [printedResult, printedWorld, hex, hs]
    · intro hi hse
      have hex := PyErr_PrintEx_exits_of_SystemExit h s3 e hi hse
      have hs : (PyErr_PrintEx h s3 e).shown = false := by
        simp [PyErr_PrintEx, hi, hse]
      simp [printedResult, printedWorld, hex, hs]
  case hwrap =>
    intro code2 t1 module2 t2 _ _ _ _ _ hc3 hx3 ha3 _
    obtain ⟨rfl, rfl⟩ := key code2 t1 module2 t2 hc3 hx3
    rw [ha] at ha3
    simp at ha3
  case hcall =>
    intro code2 t1 module2 t2 _ _ _ _ _ _ _ hc3 hx3 ha3 _ _
    obtain ⟨rfl, rfl⟩ := key code2 t1 module2 t2 hc3 hx3
    rw [ha] at ha3
    simp at ha3
  case hdone =>
    intro code2 t1 module2 t2 _ _ _ _ _ _ _ hc3 hx3 ha3 _ _
    obtain ⟨rfl, rfl⟩ := key code2 t1 module2 t2 hc3 hx3
    rw [ha] at ha3
    simp at ha3

/-- A run of the amended C9: the lookup fails with a `TypeError`, which is no
`AttributeError` and does not end the process; the load returns `NULL`, the
error is handed to `sys.excepthook` and the host logs nothing. -/
theorem LoadPlugin_lookup_failure_diagnostic_witness :
    ((sampleHost (Fault.lookup sampleTypeError)).QFile_open (mainFile samplePlugin) = true ∧
      (sampleHost (Fault.lookup sampleTypeError)).PyObject_GetAttrString 2 ⟨20⟩ "Plugin"
        = (Except.error sampleTypeError, 3) ∧
      (sampleHost (Fault.lookup sampleTypeError)).PyErr_GivenExceptionMatches 3
        sampleTypeError (sampleHost (Fault.lookup sampleTypeError)).PyExc_AttributeError
        = false ∧
      (PyErr_PrintEx (sampleHost (Fault.lookup sampleTypeError)) 3 sampleTypeError).exits
        = false) ∧
    (LoadPlugin (sampleHost (Fault.lookup sampleTypeError)) sampleLanguage samplePlugin
        sampleWorld).1 = Except.ok none ∧
    (LoadPlugin (sampleHost (Fault.lookup sampleTypeError)) sampleLanguage samplePlugin
        sampleWorld).2.pyPrinted = sampleWorld.pyPrinted ++ [sampleTypeError] ∧
    (LoadPlugin (sampleHost (Fault.lookup sampleTypeError)) sampleLanguage samplePlugin
        sampleWorld).2.log = sampleWorld.log :=
  have hrun := LoadPlugin_lookup_failure_diagnostic (sampleHost (Fault.lookup sampleTypeError))
    sampleLanguage samplePlugin sampleWorld ⟨10⟩ ⟨20⟩ sampleTypeError 1 2 3 rfl rfl rfl rfl
  ⟨⟨rfl, rfl, by decide, by decide⟩, ((hrun.2 (by decide)).2.2.2.1 (by decide)).1,
    ((hrun.2 (by decide)).2.2.2.1 (by decide)).2, (hrun.2 (by decide)).1⟩

/-! ## C10 -/

/-- Encoding in Latin-1 goes through a concatenation. -/
theorem toLatin1_append (a b : QString) : toLatin1 (a ++ b) = toLatin1 a ++ toLatin1 b := by
  simp [toLatin1]

/-- A string of Latin-1 characters is its own Latin-1 encoding. -/
theorem toLatin1_of_isLatin1 (s : QString) (hs : IsLatin1 s) : toLatin1 s = s := by
  unfold toLatin1
  conv_rhs => rw [← List.map_id s]
  apply List.map_congr_left
  intro u hu
  have := (hs u hu).2
  simp only [id]
  rw [if_neg (by omega)]

/-- A byte array without a NUL byte is read whole as a `char*`. -/
theorem data_of_pos (b : QByteArray) (hb : ∀ c ∈ b, 0 < c) : data b = b := by
  unfold data
  rw [List.takeWhile_eq_self_iff]
  intro c hc
  have := hb c hc
  simp
  omega

/-- The module name of a plugin whose id is made of Latin-1 characters other
than NUL: the bytes of `clementineplugin_` followed by the id. -/
theorem moduleName_of_isLatin1 (p : AvailablePlugin) (hp : IsLatin1 p.id_) :
    moduleName p = fromAscii "clementineplugin_" ++ p.id_ := by
  have hpre : IsLatin1 (fromAscii "clementineplugin_") := by
    unfold IsLatin1
    decide
  unfold moduleName
  rw [toLatin1_append, toLatin1_of_isLatin1 _ hpre, toLatin1_of_isLatin1 _ hp]
  apply data_of_pos
  intro c hc
  rcases List.mem_append.mp hc with hc | hc
  · exact (hpre c hc).1
  · exact (hp c hc).1

/-- C10, as stated, fails: the ids `radio★` (ending in the code unit U+2605)
and `radio?` are distinct and get the same module name. -/
theorem moduleName_not_injective :
    ¬ ∀ p q : AvailablePlugin, p.id_ ≠ q.id_ → moduleName p ≠ moduleName q := by
  intro hinj
  exact hinj { path_ := fromAscii "/plugins/a", id_ := fromAscii "radio" ++ [0x2605] }
    { path_ := fromAscii "/plugins/b", id_ := fromAscii "radio?" } (by decide) (by decide)

/-- C10, amended: `LoadPlugin` executes the script under the module name
`moduleName plugin`; for a plugin id made of Latin-1 characters other than NUL
this name is the bytes of `clementineplugin_` followed by the id, and two such
plugins with distinct ids have distinct module names. -/
theorem moduleName_injective_on_latin1 {σ : Type} (h : Host σ) (self : PythonLanguage)
    (w : World σ) (p q : AvailablePlugin)
    (hp : IsLatin1 p.id_) (hq : IsLatin1 q.id_) :
    (∀ e ∈ newCalls w (LoadPlugin h self p w).2, ∀ name code,
        e.call = Call.PyImport_ExecCodeModule name code → name = moduleName p) ∧
      moduleName p = fromAscii "clementineplugin_" ++ p.id_ ∧
      (p.id_ ≠ q.id_ → moduleName p ≠ moduleName q) := by
  refine ⟨?_, moduleName_of_isLatin1 p hp, ?_⟩
  · apply LoadPlugin_cases h self p w (fun r => ∀ e ∈ newCalls w r.2, ∀ name code,
        e.call = Call.PyImport_ExecCodeModule name code → name = moduleName p)
    all_goals simp [callsCompiled]
  · intro hne heq
    rw [moduleName_of_isLatin1 p hp, moduleName_of_isLatin1 q hq] at heq
    exact hne (List.append_cancel_left heq)

/-- A run of the amended C10: the ids `radio` and `lastfm` are Latin-1, and
their module names differ. -/
theorem moduleName_injective_on_latin1_witness :
    (IsLatin1 samplePlugin.id_ ∧ IsLatin1 (fromAscii "lastfm")) ∧
    ((∀ e ∈ newCalls sampleWorld
          (LoadPlugin (sampleHost Fault.nowhere) sampleLanguage samplePlugin sampleWorld).2,
        ∀ name code,
          e.call = Call.PyImport_ExecCodeModule name code → name = moduleName samplePlugin) ∧
      moduleName samplePlugin = fromAscii "clementineplugin_" ++ samplePlugin.id_ ∧
      (samplePlugin.id_ ≠ (AvailablePlugin.mk (fromAscii "/plugins/lastfm")
          (fromAscii "lastfm")).id_ →
        moduleName samplePlugin ≠ moduleName (AvailablePlugin.mk (fromAscii "/plugins/lastfm")
          (fromAscii "lastfm")))) :=
  ⟨⟨by unfold IsLatin1; decide, by unfold IsLatin1; decide⟩,
    moduleName_injective_on_latin1 (sampleHost Fault.nowhere) sampleLanguage sampleWorld
      samplePlugin (AvailablePlugin.mk (fromAscii "/plugins/lastfm") (fromAscii "lastfm"))
      (by unfold IsLatin1; decide) (by unfold IsLatin1; decide)⟩

end Clementine
